import Mathlib

/-!
Verification development for the autoflow repository: a shallow embedding of
the interactive commit/PR workflow (src/autoflow/_cli.py), the generation
client (src/autoflow/_litellm.py) and the VCS adapter helpers
(src/autoflow/_git.py).  External effects (git subprocesses, the LLM backend,
user input) are passed in explicitly as oracle values recorded in an
environment record, in the order the Python code consumes them; everything
else is translated function by function from the Python source.
-/

namespace Autoflow

/-- Python str truthiness for an optional string: None and the empty string
are falsy, every other string is truthy. -/
def pyTruthy : Option String → Bool
  | none => false
  | some s => !(s = "")

/-- The six ASCII whitespace characters removed by the Python str.strip()
calls appearing in the source (all strings involved are ASCII). -/
def isPySpace (c : Char) : Bool :=
  c = ' ' || c = '\t' || c = '\n' || c = '\r' || c = '\x0b' || c = '\x0c'

/-- Python str.strip(): drop whitespace from both ends. -/
def pyStrip (s : String) : String :=
  (((s.data.dropWhile isPySpace).reverse.dropWhile isPySpace).reverse).asString

/-- Python str.lower() on the ASCII strings used at the prompts. -/
def pyLower (s : String) : String :=
  (s.data.map Char.toLower).asString

/-- Python str.replace(old, new) for a one-character old and empty new:
remove every occurrence of the character. -/
def pyRemoveChar (c : Char) (s : String) : String :=
  (s.data.filter (fun d => !(d = c))).asString

/-- Prefix test on character lists, used to locate a substring the way
Python substring search does. -/
def isPrefixChars : List Char → List Char → Bool
  | [], _ => true
  | _ :: _, [] => false
  | a :: as, b :: bs => a = b && isPrefixChars as bs

/-- Python substring containment (the `sub in s` test). -/
def containsSub (sub : List Char) : List Char → Bool
  | [] => List.isEmpty sub
  | c :: rest => isPrefixChars sub (c :: rest) || containsSub sub rest

/-- Locate the first occurrence of sub in s; on a hit return the text before
it and the text after it. -/
def splitFirstAux (sub : List Char) : List Char → Option (List Char × List Char)
  | [] => none
  | c :: rest =>
    if isPrefixChars sub (c :: rest) then
      some ([], (c :: rest).drop sub.length)
    else
      match splitFirstAux sub rest with
      | some (pre, post) => some (c :: pre, post)
      | none => none

/-- Python s.split(sep, 1) for a non-empty separator: at most one split, at
the first occurrence of sep. -/
def pySplitOnce (s sep : String) : List String :=
  match splitFirstAux sep.data s.data with
  | some (pre, post) => [pre.asString, post.asString]
  | none => [s]

/-- Python s.split(sep)[0] for sep a single character: the text before the
first occurrence of the character. -/
def firstFieldAt (c : Char) (s : String) : String :=
  (s.data.takeWhile (fun d => !(d = c))).asString

/-- The character backtick (code 96), removed by generate_branch_name. -/
def backtickChar : Char := Char.ofNat 96

/-- The character single quote (code 39), removed by generate_branch_name. -/
def singleQuoteChar : Char := Char.ofNat 39

/-- The character double quote (code 34), removed by generate_branch_name. -/
def doubleQuoteChar : Char := Char.ofNat 34

/-- The two-character sequence backslash-n.  The Python source writes the
string literal backslash backslash n, which denotes these two characters,
not a newline. -/
def backslashN : List Char := ['\\', 'n']

/-! ## Generation client (src/autoflow/_litellm.py) -/

/-- Outcome of the one litellm.completion call made by
generate_commit_message: the call raised, or it returned a response whose
first-choice message content is absent (None) or the given string. -/
inductive BackendResult where
  | raised : BackendResult
  | ok : Option String → BackendResult
deriving DecidableEq, Repr

/-- The sentinel returned by generate_commit_message for a None diff. -/
def errRetrievingDiff : String := "Error retrieving git diff."

/-- The sentinel returned by generate_commit_message for a blank diff. -/
def noApplicableChanges : String :=
  "No applicable changes to commit (lock files might have been excluded)."

/-- The fixed generic fallback for an oversized diff. -/
def oversizedFallback : String :=
  "refactor: Apply extensive changes (diff too large for detailed AI summary)"

/-- The sentinel returned when the backend response has no usable content. -/
def couldNotGenerate : String := "Could not generate commit message."

/-- The sentinel returned when the backend call raised. -/
def errGenerating : String := "Error generating commit message."

/-- generate_commit_message from src/autoflow/_litellm.py lines 11-57
(src/autoflow/litellm.py lines 9-55 is textually the same logic).  Returns
the string the Python function returns, paired with whether the
litellm.completion backend call was issued.  The guards run in source
order: None diff, blank diff, then the 60000-character budget with a strict
greater-than comparison; only past all three is the backend consulted.
Every failure is reported by returning a sentinel string — the function
itself never raises. -/
def generate_commit_message (diff_content : Option String)
    (backend : BackendResult) : String × Bool :=
  match diff_content with
  | none => (errRetrievingDiff, false)
  | some d =>
    if pyStrip d = "" then (noApplicableChanges, false)
    else if d.length > 60000 then (oversizedFallback, false)
    else
      match backend with
      | BackendResult.raised => (errGenerating, true)
      | BackendResult.ok none => (couldNotGenerate, true)
      | BackendResult.ok (some c) =>
        if c = "" then (couldNotGenerate, true) else (pyStrip c, true)

/-- generate_branch_name from src/autoflow/_litellm.py lines 60-130.  The
backend oracle is Except Unit String: error stands for any raised exception
(including absent content, which raises AttributeError there), ok c for a
response with content c.  The post-validation at line 112 checks for a
space character, for the two-character sequence backslash-n (the Python
literal is backslash backslash n), and for emptiness; on violation the
function returns None (it never raises InvalidBranchName). -/
def generate_branch_name (diff_content : String)
    (backend : Except Unit String) : Option String :=
  if pyStrip diff_content = "" then none
  else if diff_content.length > 60000 then none
  else
    match backend with
    | Except.error _ => none
    | Except.ok content =>
      let s0 := pyStrip content
      let s1 := pyStrip (pyRemoveChar doubleQuoteChar
        (pyRemoveChar singleQuoteChar (pyRemoveChar backtickChar s0)))
      if s1.data.contains ' ' || containsSub backslashN s1.data || s1 = "" then
        none
      else
        some s1

/-! ## VCS adapter (src/autoflow/_git.py) -/

/-- The argument list built by git_commit_with_message
(src/autoflow/_git.py lines 83-90; src/autoflow/__main__.py lines 76-84 is
identical).  The message is stripped, then split at most once at the
two-character sequence backslash-n (the Python literal at line 86 is
backslash backslash n, not a newline); element 0 becomes the -m subject and
a non-blank element 1 becomes a second -m segment.  The external git
invocation itself is not modelled; the claim is about the argument list. -/
def git_commit_with_message_args (message : String) : List String :=
  let lines := pySplitOnce (pyStrip message) (String.mk backslashN)
  let args := ["git", "commit", "-m", lines.headD ""]
  if lines.length > 1 ∧ pyStrip (lines.getD 1 "") ≠ "" then
    args ++ ["-m", pyStrip (lines.getD 1 "")]
  else
    args

/-! ## Workflow engine (src/autoflow/_cli.py)

The commit command is a straight-line script whose branches are decided by
the results of external calls (git subprocesses, the LLM backend, console
input).  Env records those results, one field per call site, in the order
the Python code consumes them.  The results of create_and_checkout_branch
(line 52) and git_commit_with_message (line 77) are discarded by the Python
code, so they have no Env field. -/

/-- One commit run's external-call results, in call order. -/
structure Env where
  /-- get_current_branch() at line 32: None on failure. -/
  currentBranch : Option String
  /-- get_default_branch() at line 37. -/
  defaultBranch : Option String
  /-- get_git_diff(staged=False) at line 38: None on command failure. -/
  workingDiff : Option String
  /-- backend outcome inside generate_branch_name at line 46. -/
  branchBackend : Except Unit String
  /-- console.input answer to the branch-name prompt at line 51. -/
  branchAnswer : String
  /-- stage_all_changes() result at line 56. -/
  stageOk : Bool
  /-- get_git_diff() (staged) at line 60: None on command failure. -/
  stagedDiff : Option String
  /-- backend outcome inside generate_commit_message at line 68. -/
  msgBackend : BackendResult
  /-- console.input answer to the commit confirmation at line 76. -/
  confirmAnswer : String
  /-- push_current_branch() result at line 81. -/
  pushOk : Bool
  /-- outcome of generate_pr_description at line 101 of the pr command:
  error stands for a raised exception. -/
  prGen : Except Unit String
  /-- console.input answer to the PR-description confirmation at line 109. -/
  prAnswer : String
  /-- create_pull_request result at line 117: the URL, or None. -/
  prUrl : Option String

/-- Observable trace of one run of the commit command: which prompts were
shown, which repository mutations were invoked and with what, and the value
the Python function returned (none for the early returns, which return
None in Python). -/
structure CommitRun where
  branchCreateCalled : Option String := none
  confirmShown : Bool := false
  commitCalled : Option String := none
  pushCalled : Bool := false
  result : Option (Option String × String × String × String) := none
deriving DecidableEq, Repr

/-- The tail of the commit command from line 66 on, once the current branch
cur, the branch-creation record created and the non-None staged diff dc are
in hand: generate the message, confirm (decline exactly on the trimmed,
lowercased answer n, line 76), commit on acceptance, then always push; a
failed push returns None, a successful one returns the tuple of line 85
with the UNCHANGED current branch name. -/
def commitTail (e : Env) (cur : String) (created : Option String)
    (dc : String) : CommitRun :=
  let msg := (generate_commit_message (some dc) e.msgBackend).1
  let commitCalled :=
    if pyLower (pyStrip e.confirmAnswer) ≠ "n" then some msg else none
  if !e.pushOk then
    { branchCreateCalled := created, confirmShown := true,
      commitCalled := commitCalled, pushCalled := true }
  else
    { branchCreateCalled := created, confirmShown := true,
      commitCalled := commitCalled, pushCalled := true,
      result := some (e.defaultBranch, cur, msg, dc) }

/-- The default-branch block, src/autoflow/_cli.py lines 43-54.  Runs only
when the default branch is truthy and equals the current branch; a None
from generate_branch_name aborts the whole commit (outer result none); the
answer y (trimmed, lowercased) triggers create_and_checkout_branch, whose
result is discarded and whose effect is NOT reflected in
current_branch_name; any other answer continues on the default branch.
The inner value records the branch name passed to
create_and_checkout_branch, if any. -/
def branchPhase (e : Env) (cur wdiff : String) : Option (Option String) :=
  if pyTruthy e.defaultBranch && decide (e.defaultBranch = some cur) then
    match generate_branch_name wdiff e.branchBackend with
    | none => none
    | some bn =>
      if pyLower (pyStrip e.branchAnswer) = "y" then some (some bn)
      else some none
  else some none

/-- The commit command, src/autoflow/_cli.py lines 30-85.  Aborts (returning
the empty trace, i.e. Python returns None) when the current branch is falsy,
the working-tree diff is None, branch-name generation returns None on the
default branch, staging fails, or the staged diff is None; otherwise hands
over to commitTail.  The try/except around generate_commit_message at lines
67-71 never fires, because the _litellm function reports every failure as a
returned sentinel string and raises nothing, so the model has no exception
path there. -/
def cliCommit (e : Env) : CommitRun :=
  match e.currentBranch with
  | none => {}
  | some cur =>
    if cur = "" then {}
    else
      match e.workingDiff with
      | none => {}
      | some wdiff =>
        match branchPhase e cur wdiff with
        | none => {}
        | some created =>
          if !e.stageOk then { branchCreateCalled := created }
          else
            match e.stagedDiff with
            | none => { branchCreateCalled := created }
            | some dc => commitTail e cur created dc

/-- Observable trace of one run of the pr command. -/
structure PrRun where
  commitRun : CommitRun
  /-- The commit command returned None, so unpacking its result at line 92
  raises a TypeError. -/
  crashed : Bool := false
  /-- The default-branch refusal at lines 94-96 fired. -/
  refused : Bool := false
  /-- The PR description shown for confirmation at line 107. -/
  descriptionShown : Option String := none
  /-- Arguments of the create_pull_request call at line 117:
  title, body, base branch. -/
  prCreated : Option (String × String × Option String) := none
deriving DecidableEq, Repr

/-- The pr command, src/autoflow/_cli.py lines 90-122.  Runs commit, unpacks
its tuple (crashing on None), refuses when the returned current branch
equals the returned default branch, computes the PR description (falling
back to the commit message when generation raises, lines 100-104), shows it,
declines exactly on answer n, and otherwise creates the PR with title the
first line of the commit message (line 114 splits at a real newline). -/
def cliPr (e : Env) : PrRun :=
  let cr := cliCommit e
  match cr.result with
  | none => { commitRun := cr, crashed := true }
  | some (d, c, m, _diff) =>
    if d = some c then { commitRun := cr, refused := true }
    else
      let desc :=
        match e.prGen with
        | Except.ok s => s
        | Except.error _ => m
      if pyLower (pyStrip e.prAnswer) = "n" then
        { commitRun := cr, descriptionShown := some desc }
      else
        { commitRun := cr, descriptionShown := some desc,
          prCreated := some (firstFieldAt '\n' m, desc, d) }

/-! ## Concrete runs used by the claim theorems -/

/-- A 60000-character diff: exactly at the character budget. -/
def bigDiff : String := String.mk (List.replicate 60000 'a')

/-- A 60001-character diff: strictly over the character budget. -/
def bigDiff2 : String := String.mk (List.replicate 60001 'a')

/-- A 60001-character diff consisting only of spaces: over the budget but
blank after trimming. -/
def bigBlank : String := String.mk (List.replicate 60001 ' ')

/-- Run for C1: on a non-default branch, staging succeeds but the staged
diff is empty after lockfile exclusion; the user presses Enter at the
confirmation. -/
def envC1 : Env :=
  { currentBranch := some "feature-x", defaultBranch := none,
    workingDiff := some "w", branchBackend := Except.ok "unused",
    branchAnswer := "", stageOk := true, stagedDiff := some "",
    msgBackend := BackendResult.ok (some "feat: x"), confirmAnswer := "",
    pushOk := true, prGen := Except.ok "p", prAnswer := "", prUrl := none }

/-- Run for C2: a normal run in which the user declines the commit
confirmation with the answer N surrounded by spaces. -/
def envC2 : Env :=
  { currentBranch := some "feature-x", defaultBranch := none,
    workingDiff := some "w", branchBackend := Except.ok "unused",
    branchAnswer := "", stageOk := true, stagedDiff := some "d",
    msgBackend := BackendResult.ok (some "feat: x"), confirmAnswer := " N ",
    pushOk := true, prGen := Except.ok "p", prAnswer := "", prUrl := none }

/-- Run for C6: a normal staged diff, but the backend call inside
generate_commit_message raises; the user presses Enter at the
confirmation. -/
def envC6 : Env :=
  { currentBranch := some "feature-x", defaultBranch := none,
    workingDiff := some "w", branchBackend := Except.ok "unused",
    branchAnswer := "", stageOk := true, stagedDiff := some "diff text",
    msgBackend := BackendResult.raised, confirmAnswer := "",
    pushOk := true, prGen := Except.ok "p", prAnswer := "", prUrl := none }

/-- Run for C7: the user starts on the default branch main, accepts the
suggested branch name feat/login, and every later step succeeds, including
the chained pr command. -/
def envC7 : Env :=
  { currentBranch := some "main", defaultBranch := some "main",
    workingDiff := some "w", branchBackend := Except.ok "feat/login",
    branchAnswer := "y", stageOk := true, stagedDiff := some "d",
    msgBackend := BackendResult.ok (some "feat: login"), confirmAnswer := "",
    pushOk := true, prGen := Except.ok "desc", prAnswer := "", prUrl := none }

/-- Run for the C8 witness: a pr run on a feature branch in which
PR-description generation raises. -/
def envC8 : Env :=
  { currentBranch := some "feat-1", defaultBranch := some "main",
    workingDiff := some "w", branchBackend := Except.ok "unused",
    branchAnswer := "", stageOk := true, stagedDiff := some "d",
    msgBackend := BackendResult.ok (some "msg"), confirmAnswer := "",
    pushOk := true, prGen := Except.error (), prAnswer := "", prUrl := none }

/-- Run for the C9 witness: both confirmation answers are empty. -/
def envC9 : Env :=
  { currentBranch := some "feat-2", defaultBranch := some "main",
    workingDiff := some "w", branchBackend := Except.ok "unused",
    branchAnswer := "", stageOk := true, stagedDiff := some "d",
    msgBackend := BackendResult.ok (some "msg2"), confirmAnswer := "",
    pushOk := true, prGen := Except.ok "desc2", prAnswer := "", prUrl := none }

/-- Run for the C10 witness: the confirmation answers are the words no and
abort, neither of which is the exact letter n. -/
def envC10 : Env :=
  { currentBranch := some "feat-3", defaultBranch := some "main",
    workingDiff := some "w", branchBackend := Except.ok "unused",
    branchAnswer := "", stageOk := true, stagedDiff := some "d",
    msgBackend := BackendResult.ok (some "msg3"), confirmAnswer := "no",
    pushOk := true, prGen := Except.ok "desc3", prAnswer := "abort", prUrl := none }

/-! ## Helper lemmas -/

theorem dropWhile_replicate_a (n : Nat) :
    (List.replicate n 'a').dropWhile isPySpace = List.replicate n 'a' := by
  cases n with
  | zero => rfl
  | succ m =>
    rw [List.replicate_succ, List.dropWhile_cons]
    simp [isPySpace]

theorem dropWhile_replicate_space (n : Nat) :
    (List.replicate n ' ').dropWhile isPySpace = [] := by
  induction n with
  | zero => rfl
  | succ m ih =>
    rw [List.replicate_succ, List.dropWhile_cons]
    simp [isPySpace, ih]

theorem pyStrip_replicate_a (n : Nat) :
    pyStrip (String.mk (List.replicate n 'a')) = String.mk (List.replicate n 'a') := by
  unfold pyStrip
  rw [show (String.mk (List.replicate n 'a')).data = List.replicate n 'a' from rfl]
  rw [dropWhile_replicate_a, List.reverse_replicate, dropWhile_replicate_a,
    List.reverse_replicate]
  rfl

theorem pyStrip_replicate_space (n : Nat) :
    pyStrip (String.mk (List.replicate n ' ')) = "" := by
  unfold pyStrip
  rw [show (String.mk (List.replicate n ' ')).data = List.replicate n ' ' from rfl]
  rw [dropWhile_replicate_space, List.reverse_nil, List.dropWhile_nil, List.reverse_nil]
  rfl

theorem length_mk_replicate (n : Nat) (c : Char) :
    (String.mk (List.replicate n c)).length = n := by
  simp [String.length]

theorem mk_replicate_a_ne_empty (n : Nat) (h : 0 < n) :
    String.mk (List.replicate n 'a') ≠ "" := by
  intro he
  have h2 := congrArg String.length he
  rw [length_mk_replicate] at h2
  simp [String.length] at h2
  omega

/-- In commitTail, git_commit_with_message is invoked exactly when the
trimmed, lowercased confirmation answer differs from n, and then with the
generated message. -/
theorem commitTail_commitCalled (e : Env) (cur : String) (created : Option String)
    (dc : String) :
    (commitTail e cur created dc).commitCalled =
      (if pyLower (pyStrip e.confirmAnswer) ≠ "n"
        then some (generate_commit_message (some dc) e.msgBackend).1 else none) := by
  cases hp : e.pushOk <;> simp [commitTail, hp]

/-- Any run of the commit command that shows the confirmation prompt is a
commitTail run. -/
theorem cliCommit_confirm_inv (e : Env) (h : (cliCommit e).confirmShown = true) :
    ∃ cur created dc, cliCommit e = commitTail e cur created dc := by
  cases hcb : e.currentBranch with
  | none => simp [cliCommit, hcb] at h
  | some cur =>
    by_cases hc : cur = ""
    · simp [cliCommit, hcb, hc] at h
    · cases hwd : e.workingDiff with
      | none => simp [cliCommit, hcb, hc, hwd] at h
      | some wdiff =>
        cases hbp : branchPhase e cur wdiff with
        | none => simp [cliCommit, hcb, hc, hwd, hbp] at h
        | some created =>
          cases hs : e.stageOk with
          | false => simp [cliCommit, hcb, hc, hwd, hbp, hs] at h
          | true =>
            cases hsd : e.stagedDiff with
            | none => simp [cliCommit, hcb, hc, hwd, hbp, hs, hsd] at h
            | some dc =>
              exact ⟨cur, created, dc, by simp [cliCommit, hcb, hc, hwd, hbp, hs, hsd]⟩

/-- In any pr run that shows the description for confirmation, the PR is
created iff the trimmed, lowercased answer differs from n. -/
theorem cliPr_prCreated_iff (e : Env) (h : (cliPr e).descriptionShown.isSome = true) :
    ((cliPr e).prCreated = none ↔ pyLower (pyStrip e.prAnswer) = "n") := by
  cases hres : (cliCommit e).result with
  | none => simp [cliPr, hres] at h
  | some tup =>
    obtain ⟨d, c, m, df⟩ := tup
    by_cases hd : d = some c
    · simp [cliPr, hres, hd] at h
    · by_cases hn : pyLower (pyStrip e.prAnswer) = "n" <;>
        simp [cliPr, hres, hd, hn]

/-! ## Claim theorems -/

/-- Claim C1 (code-bug evaluation).  The claim states that the workflow
never attempts a commit when the staged diff is empty or absent.  The
absent half holds, but in the _cli.py commit command an empty staged diff
is NOT intercepted: generate_commit_message returns the no-changes sentinel
string, no caller-side check exists (unlike cli.py lines 68-72 and 82-87),
and the default-accepted confirmation invokes git commit with that sentinel
and then pushes.  This theorem evaluates the run at that failing input. -/
theorem C1_empty_staged_diff_still_commits :
    (cliCommit envC1).commitCalled = some noApplicableChanges
    ∧ (cliCommit envC1).pushCalled = true
    ∧ (cliCommit envC1).result ≠ none := by decide

/-- Claim C2 (code-bug evaluation).  The claim states that declining the
commit confirmation ends the workflow without any repository mutation.  In
_cli.py lines 76-83 the push at line 81 is outside the confirmation
conditional, so a declined run skips git commit but still invokes
push_current_branch and then returns the result tuple.  This theorem
evaluates the run at a declining input. -/
theorem C2_decline_still_pushes :
    (cliCommit envC2).commitCalled = none
    ∧ (cliCommit envC2).pushCalled = true
    ∧ (cliCommit envC2).result ≠ none := by decide

/-- Claim C3 (code-bug evaluation).  The claim states that
git_commit_with_message splits the message at the first newline into a
subject segment and a trimmed body segment.  The Python source (line 86 of
_git.py and line 80 of main) splits at the literal two-character
sequence backslash-n, so a genuinely multi-line message is passed whole,
newlines included, as the single -m subject, with no body segment; a
message containing the literal two-character sequence is split there
instead.  This theorem evaluates both behaviours. -/
theorem C3_multiline_message_not_split :
    git_commit_with_message_args "feat: add login\n\nAdd login page and tests"
      = ["git", "commit", "-m", "feat: add login\n\nAdd login page and tests"]
    ∧ git_commit_with_message_args "lit\\nbody here"
      = ["git", "commit", "-m", "lit", "-m", "body here"]
    ∧ git_commit_with_message_args "single line"
      = ["git", "commit", "-m", "single line"] := by decide

/-- Claim C4 counterexample.  The claim fails at the boundary and on blank
input: a diff of exactly 60000 characters is AT the stated budget yet the
backend call is issued (the guard is a strict greater-than); a blank diff
over the budget returns the no-changes sentinel, not the generic fallback
(the blank check precedes the length check); and a successful response
whose content is all whitespace yields empty trimmed text. -/
theorem C4_counterexample :
    (bigDiff.length = 60000
      ∧ (generate_commit_message (some bigDiff) (BackendResult.ok (some "feat: x"))).2 = true)
    ∧ (bigBlank.length = 60001
      ∧ generate_commit_message (some bigBlank) BackendResult.raised
          = (noApplicableChanges, false))
    ∧ ((generate_commit_message (some "x") (BackendResult.ok (some " "))).2 = true
      ∧ (generate_commit_message (some "x") (BackendResult.ok (some " "))).1 = "") := by
  have hnb : pyStrip bigDiff ≠ "" := by
    unfold bigDiff
    rw [pyStrip_replicate_a]
    exact mk_replicate_a_ne_empty 60000 (by omega)
  have hlen : bigDiff.length = 60000 := length_mk_replicate 60000 'a'
  have hngt : ¬ (bigDiff.length > 60000) := by omega
  have hbb : pyStrip bigBlank = "" := pyStrip_replicate_space 60001
  refine ⟨⟨hlen, ?_⟩, ⟨length_mk_replicate 60001 ' ', ?_⟩, by decide⟩
  · simp [generate_commit_message, hnb, hngt]
  · simp [generate_commit_message, hbb]

/-- Claim C4 as amended: a BLANK diff (of any length) yields the no-changes
sentinel without a backend call; a non-blank diff STRICTLY over 60000
characters yields the fixed generic fallback without a backend call; for a
non-blank diff of at most 60000 characters the backend is called, and a
response whose trimmed content is non-empty yields exactly that non-empty
trimmed text. -/
theorem C4_amended_budget_policy (d : String) (b : BackendResult) :
    (pyStrip d = "" →
      generate_commit_message (some d) b = (noApplicableChanges, false))
    ∧ (pyStrip d ≠ "" → d.length > 60000 →
        generate_commit_message (some d) b = (oversizedFallback, false))
    ∧ (pyStrip d ≠ "" → d.length ≤ 60000 →
        (generate_commit_message (some d) b).2 = true
        ∧ ∀ c, b = BackendResult.ok (some c) → pyStrip c ≠ "" →
            (generate_commit_message (some d) b).1 = pyStrip c) := by
  refine ⟨?_, ?_, ?_⟩
  · intro hb
    simp [generate_commit_message, hb]
  · intro hnb hgt
    simp [generate_commit_message, hnb, hgt]
  · intro hnb hle
    have hngt : ¬ (d.length > 60000) := by omega
    constructor
    · cases b with
      | raised => simp [generate_commit_message, hnb, hngt]
      | ok c =>
        cases c with
        | none => simp [generate_commit_message, hnb, hngt]
        | some s =>
          by_cases hs : s = "" <;> simp [generate_commit_message, hnb, hngt, hs]
    · intro c hb hc
      subst hb
      have hcne : c ≠ "" := by
        intro h0
        exact hc (by rw [h0]; rfl)
      simp [generate_commit_message, hnb, hngt, hcne]

/-- Witness for the amended C4, at concrete inputs: a 60001-space blank
diff, a 60001-character non-blank diff, and a small diff with a padded
response. -/
theorem C4_amended_budget_policy_witness :
    generate_commit_message (some bigBlank) BackendResult.raised
      = (noApplicableChanges, false)
    ∧ generate_commit_message (some bigDiff2) BackendResult.raised
      = (oversizedFallback, false)
    ∧ (generate_commit_message (some "x") (BackendResult.ok (some " m "))).1
      = pyStrip " m " := by
  refine ⟨?_, ?_, ?_⟩
  · exact (C4_amended_budget_policy bigBlank BackendResult.raised).1
      (pyStrip_replicate_space 60001)
  · exact (C4_amended_budget_policy bigDiff2 BackendResult.raised).2.1
      (by unfold bigDiff2
          rw [pyStrip_replicate_a]
          exact mk_replicate_a_ne_empty 60001 (by omega))
      (by show (String.mk (List.replicate 60001 'a')).length > 60000
          rw [length_mk_replicate]
          omega)
  · exact ((C4_amended_budget_policy "x" (BackendResult.ok (some " m "))).2.2
      (by decide) (by decide)).2 " m " rfl (by decide)

/-- Claim C5 (code-bug evaluation).  The claim states that a non-failing
generate_branch_name result contains no space and no newline, and that a
validation violation raises InvalidBranchName.  The validation at line 112
tests membership of the literal two-character sequence backslash-n, not of
a newline, so a suggestion with an internal real newline is returned
as-is; and on violation the function returns None, never raising
InvalidBranchName (that exception class is defined in _exceptions.py but
unused).  This theorem evaluates the failing input. -/
theorem C5_newline_survives_validation :
    generate_branch_name "x" (Except.ok "feat/a\nb") = some "feat/a\nb"
    ∧ '\n' ∈ ("feat/a\nb").data
    ∧ generate_branch_name "x" (Except.ok "two words") = none := by decide

/-- Claim C6 (code-bug evaluation).  The claim states that any
commit-message generation failure aborts the workflow before committing
and that no sentinel message is ever committed (oversized-diff fallback
aside).  In _cli.py the _litellm generator reports a raised backend call by
RETURNING the sentinel string, the try/except at lines 67-71 therefore
never fires, no sentinel check exists (unlike cli.py lines 79-87), and the
default-accepted confirmation commits the sentinel text.  This theorem
evaluates the run whose backend call raises. -/
theorem C6_backend_error_sentinel_committed :
    (cliCommit envC6).commitCalled = some errGenerating
    ∧ (cliCommit envC6).result ≠ none := by decide

/-- Claim C7 (code-bug evaluation).  The claim states that after an
accepted branch creation the current-branch value used by later steps is
the new branch, so a chained pr run passes the default-branch refusal
check.  In _cli.py line 52 the result of create_and_checkout_branch is
discarded and current_branch_name is never reassigned (unlike main
line 214), so the tuple returned at line 85 still carries the default
branch as current branch and the pr command at lines 94-96 refuses.  This
theorem evaluates the accepted-branch run end to end. -/
theorem C7_accepted_branch_stale_pr_refused :
    (cliPr envC7).commitRun.branchCreateCalled = some "feat/login"
    ∧ (cliPr envC7).commitRun.result = some (some "main", "main", "feat: login", "d")
    ∧ (cliPr envC7).refused = true
    ∧ (cliPr envC7).prCreated = none := by decide

/-- Claim C8: in the pr workflow, if PR-description generation raises, the
workflow does not abort: it falls back to the commit message verbatim as
the description, proceeds to the confirmation, and on acceptance creates
the PR with the commit message as body. -/
theorem C8_pr_description_fallback (e : Env) (d : Option String) (c m df : String)
    (hres : (cliCommit e).result = some (d, c, m, df))
    (hne : d ≠ some c)
    (hraise : e.prGen = Except.error ()) :
    (cliPr e).crashed = false ∧ (cliPr e).refused = false
    ∧ (cliPr e).descriptionShown = some m
    ∧ (pyLower (pyStrip e.prAnswer) ≠ "n" →
        (cliPr e).prCreated = some (firstFieldAt '\n' m, m, d)) := by
  by_cases hn : pyLower (pyStrip e.prAnswer) = "n" <;>
    simp [cliPr, hres, hne, hraise, hn]

/-- Witness for C8: a concrete pr run on branch feat-1 whose description
generation raises. -/
theorem C8_pr_description_fallback_witness :
    (cliPr envC8).crashed = false ∧ (cliPr envC8).refused = false
    ∧ (cliPr envC8).descriptionShown = some "msg" := by
  have h := C8_pr_description_fallback envC8 (some "main") "feat-1" "msg" "d"
    (by decide) (by decide) rfl
  exact ⟨h.1, h.2.1, h.2.2.1⟩

/-- Claim C9: at the commit-message confirmation and at the PR-description
confirmation, an empty response is treated as acceptance, so the
corresponding mutation (git commit, PR creation) proceeds. -/
theorem C9_empty_response_accepts (e : Env) :
    (e.confirmAnswer = "" → (cliCommit e).confirmShown = true →
      (cliCommit e).commitCalled ≠ none)
    ∧ (e.prAnswer = "" → (cliPr e).descriptionShown.isSome = true →
      (cliPr e).prCreated ≠ none) := by
  constructor
  · intro ha h
    obtain ⟨cur, created, dc, heq⟩ := cliCommit_confirm_inv e h
    rw [heq, commitTail_commitCalled, ha]
    rw [if_pos (by decide : pyLower (pyStrip "") ≠ "n")]
    simp
  · intro ha h
    have h2 := cliPr_prCreated_iff e h
    rw [ha] at h2
    intro hnone
    exact absurd (h2.mp hnone) (by decide)

/-- Witness for C9: a concrete run reaching both prompts with empty
answers; both mutations proceed. -/
theorem C9_empty_response_accepts_witness :
    (cliCommit envC9).commitCalled ≠ none ∧ (cliPr envC9).prCreated ≠ none :=
  ⟨(C9_empty_response_accepts envC9).1 rfl (by decide),
   (C9_empty_response_accepts envC9).2 rfl (by decide)⟩

/-- Claim C10: at the commit and PR confirmation prompts, decline happens
exactly for the response n after trimming and lowercasing; every other
response, including no or abort, is treated as acceptance and triggers the
mutation. -/
theorem C10_only_exact_n_declines (e : Env) :
    ((cliCommit e).confirmShown = true →
      ((cliCommit e).commitCalled = none ↔ pyLower (pyStrip e.confirmAnswer) = "n"))
    ∧ ((cliPr e).descriptionShown.isSome = true →
      ((cliPr e).prCreated = none ↔ pyLower (pyStrip e.prAnswer) = "n")) := by
  constructor
  · intro h
    obtain ⟨cur, created, dc, heq⟩ := cliCommit_confirm_inv e h
    rw [heq, commitTail_commitCalled]
    by_cases hn : pyLower (pyStrip e.confirmAnswer) = "n" <;> simp [hn]
  · exact cliPr_prCreated_iff e

/-- Witness for C10: with answers no and abort, both mutations are
triggered. -/
theorem C10_only_exact_n_declines_witness :
    (cliCommit envC10).commitCalled ≠ none ∧ (cliPr envC10).prCreated ≠ none := by
  have h1 := (C10_only_exact_n_declines envC10).1 (by decide)
  have h2 := (C10_only_exact_n_declines envC10).2 (by decide)
  exact ⟨fun hn => absurd (h1.mp hn) (by decide),
    fun hn => absurd (h2.mp hn) (by decide)⟩

end Autoflow
